import Mathlib

/-!
Shallow embedding of `src/alert-watcher/watcher.py` (blue-green deployment
alert watcher). Python floats (timestamps, error rates, thresholds) are
modelled as rationals; Python dicts keyed by alert-type strings are modelled
as association lists; the bounded `deque(maxlen=WINDOW_SIZE)` is modelled as
a list that keeps its most recent `WINDOW_SIZE` elements. Side effects that
matter to the claims (calls to the alert gate, Slack notification attempts)
are made explicit as an event list.
-/

namespace Watcher

/-- Configuration read from environment variables at module load:
`ERROR_RATE_THRESHOLD` (default 2.0), `WINDOW_SIZE` (default 200),
`ALERT_COOLDOWN_SEC` (default 300), `MAINTENANCE_MODE` (default false). -/
structure Config where
  errorRateThreshold : ℚ
  windowSize : ℕ
  alertCooldownSec : ℚ
  maintenanceMode : Bool
deriving DecidableEq, Repr

/-- The defaults of the environment variables in the source. -/
def defaultConfig : Config :=
  { errorRateThreshold := 2
    windowSize := 200
    alertCooldownSec := 300
    maintenanceMode := false }

/-- One entry of `state.request_window`: the dict
`{'status': ..., 'pool': ..., 'timestamp': ...}` built in `add_request`. -/
structure Request where
  status : ℤ
  pool : String
  timestamp : ℚ
deriving DecidableEq, Repr

/-- `WatcherState.__init__`: the mutable state object. `last_alert_times`
is a Python dict from alert-type string to timestamp; we model it as an
association list where assignment replaces in place or appends. -/
structure State where
  requestWindow : List Request
  currentPool : Option String
  lastAlertTimes : List (String × ℚ)
  failoverStartTime : Option ℚ
  totalRequests : ℕ
deriving DecidableEq, Repr

/-- The freshly constructed `WatcherState()`. -/
def initState : State :=
  { requestWindow := []
    currentPool := none
    lastAlertTimes := []
    failoverStartTime := none
    totalRequests := 0 }

/-- Python `d.get(k, default)` on the association-list model of a dict. -/
def dictGetD : List (String × ℚ) → String → ℚ → ℚ
  | [], _, v0 => v0
  | (k1, v1) :: rest, k, v0 => if k1 = k then v1 else dictGetD rest k v0

/-- Python `d.get(k)` without default, as an `Option`. -/
def dictGet : List (String × ℚ) → String → Option ℚ
  | [], _ => none
  | (k1, v1) :: rest, k => if k1 = k then some v1 else dictGet rest k

/-- Python `d[k] = v`: replace the value in place if the key is present,
otherwise append the new binding. -/
def dictSet : List (String × ℚ) → String → ℚ → List (String × ℚ)
  | [], k, v => [(k, v)]
  | (k1, v1) :: rest, k, v =>
    if k1 = k then (k, v) :: rest else (k1, v1) :: dictSet rest k v

/-- `deque(maxlen=cap).append x`: keep the most recent `cap` elements.
When the deque is at capacity the oldest element is dropped by the same
append. -/
def dequeAppend {α : Type} (cap : ℕ) (w : List α) (x : α) : List α :=
  let w' := w ++ [x]
  w'.drop (w'.length - cap)

/-- `WatcherState.add_request`: append the observation to the sliding
window and bump `total_requests`. `now` is the `time.time()` call. -/
def add_request (cfg : Config) (s : State) (status : ℤ) (pool : String) (now : ℚ) : State :=
  { s with
    requestWindow := dequeAppend cfg.windowSize s.requestWindow ⟨status, pool, now⟩
    totalRequests := s.totalRequests + 1 }

/-- `WatcherState.get_error_rate`: 5xx rate over the window, in percent;
0.0 on an empty window. -/
def get_error_rate (s : State) : ℚ :=
  if s.requestWindow.length = 0 then 0
  else
    let errorCount := s.requestWindow.countP (fun r => decide (500 ≤ r.status ∧ r.status < 600))
    ((errorCount : ℚ) / (s.requestWindow.length : ℚ)) * 100

/-- `WatcherState.can_send_alert`: under maintenance mode always false and
no state change; otherwise grant exactly when `now - last_time >=
ALERT_COOLDOWN_SEC` where an absent entry defaults to `0`, recording the
grant time on success. Returns the result together with the updated
state. -/
def can_send_alert (cfg : Config) (s : State) (alertType : String) (now : ℚ) : Bool × State :=
  if cfg.maintenanceMode then
    (false, s)
  else
    let lastTime := dictGetD s.lastAlertTimes alertType 0
    if cfg.alertCooldownSec ≤ now - lastTime then
      (true, { s with lastAlertTimes := dictSet s.lastAlertTimes alertType now })
    else
      (false, s)

/-- Observable side effects of a watcher step: a call to the cooldown gate
(`can_send_alert`, with its result) and Slack notification attempts with
the payload fields the claims mention. -/
inductive Event
  | gateAttempt (alertType : String) (granted : Bool)
  | slackFailover (fromPool toPool : String)
  | slackRecovery (pool : String) (duration : ℚ)
  | slackErrorRate (rate : ℚ) (activePool : String)
deriving DecidableEq, Repr

/-- Python truthiness of `state.failover_start_time` (a float or `None`):
`None` and `0.0` are falsy. -/
def pyTruthy : Option ℚ → Bool
  | none => false
  | some t => t != 0

/-- Python `s or default` on the optional pool string: `None` and the
empty string are falsy. -/
def pyOrStr (o : Option String) (d : String) : String :=
  match o with
  | none => d
  | some p => if p = "" then d else p

/-- `new_pool.lower().startswith('blue')` (ASCII lowering, as in the pool
names the watcher sees). -/
def startsWithBlue (s : String) : Bool :=
  List.isPrefixOf ['b', 'l', 'u', 'e'] (s.toList.map Char.toLower)

/-- `detect_failover`: record the initial pool on the first observation;
on a pool change, attempt a failover alert through the gate (recording the
grant time and `failover_start_time` only on grant), update the active
pool unconditionally, and when the new pool name starts (case-insensitively)
with "blue" and `failover_start_time` is truthy, attempt a recovery alert
and clear `failover_start_time` regardless of the gate result. Returns
(failover-detected, new state, events). -/
def detect_failover (cfg : Config) (s : State) (newPool : String) (now : ℚ) :
    Bool × State × List Event :=
  match s.currentPool with
  | none => (false, { s with currentPool := some newPool }, [])
  | some cur =>
    if cur = newPool then
      (false, s, [])
    else
      let g := can_send_alert cfg s "failover" now
      let ev1 := Event.gateAttempt "failover" g.1 ::
        (if g.1 then [Event.slackFailover cur newPool] else [])
      let s2 := if g.1 then { g.2 with failoverStartTime := some now } else g.2
      let s3 := { s2 with currentPool := some newPool }
      if startsWithBlue newPool && pyTruthy s3.failoverStartTime then
        let duration := now - s3.failoverStartTime.getD 0
        let g2 := can_send_alert cfg s3 "recovery" now
        let ev2 := Event.gateAttempt "recovery" g2.1 ::
          (if g2.1 then [Event.slackRecovery newPool duration] else [])
        (true, { g2.2 with failoverStartTime := none }, ev1 ++ ev2)
      else
        (true, s3, ev1)

/-- `check_error_rate`: a no-op while the window holds fewer than 10% of
`WINDOW_SIZE` entries (the literal `0.1` of the source is modelled as the
rational 1/10); otherwise, when the error rate strictly exceeds the
threshold, attempt an error-rate alert through the gate and notify with
the rate and the active pool on grant. Returns (new state, events). -/
def check_error_rate (cfg : Config) (s : State) (now : ℚ) : State × List Event :=
  if (s.requestWindow.length : ℚ) < (cfg.windowSize : ℚ) * (1 / 10) then
    (s, [])
  else
    let rate := get_error_rate s
    if cfg.errorRateThreshold < rate then
      let g := can_send_alert cfg s "error_rate" now
      (g.2, Event.gateAttempt "error_rate" g.1 ::
        (if g.1 then [Event.slackErrorRate rate (pyOrStr s.currentPool "Unknown")] else []))
    else
      (s, [])

/-- The record returned by a successful `parse_log_line`. -/
structure LogRecord where
  pool : String
  release : String
  upstream_status : ℤ
  upstream_addr : String
  request_time : ℚ
  upstream_response_time : ℚ
deriving DecidableEq, Repr

/-- Python `str.strip()` on a char list: drop whitespace from both ends. -/
def pyStrip (l : List Char) : List Char :=
  ((l.dropWhile Char.isWhitespace).reverse.dropWhile Char.isWhitespace).reverse

/-- Python `line.split('|')` on a char list: split on every pipe, keeping
empty fields (so the empty input yields one empty field). -/
def splitPipe : List Char → List (List Char)
  | [] => [[]]
  | c :: rest =>
    if c = '|' then [] :: splitPipe rest
    else
      match splitPipe rest with
      | [] => [[c]]
      | f :: fs => (c :: f) :: fs

/-- Leading sign of a Python numeric literal: (negative?, remaining chars). -/
def pySign : List Char → Bool × List Char
  | '-' :: r => (true, r)
  | '+' :: r => (false, r)
  | l => (false, l)

/-- Value of a non-empty all-digit run, most significant first. -/
def digitsVal : List Char → ℕ → ℕ
  | [], acc => acc
  | c :: cs, acc => digitsVal cs (acc * 10 + (c.toNat - '0'.toNat))

/-- A non-empty run of decimal digits, or failure. -/
def parseDigits (l : List Char) : Option ℕ :=
  if l ≠ [] ∧ l.all Char.isDigit then some (digitsVal l 0) else none

/-- Python `int(s)` on an already-stripped field: optional sign then a
non-empty digit run (digit-group underscores are not modelled). -/
def pyInt (l : List Char) : Option ℤ :=
  let p := pySign l
  (parseDigits p.2).map (fun n => if p.1 then -(n : ℤ) else (n : ℤ))

/-- Mantissa of a Python float literal: `digits`, `digits.digits`,
`digits.` or `.digits`. -/
def parseMantissa (l : List Char) : Option ℚ :=
  let ip := l.takeWhile Char.isDigit
  let rest := l.dropWhile Char.isDigit
  match rest with
  | [] => if ip = [] then none else some ((digitsVal ip 0 : ℕ) : ℚ)
  | '.' :: frac =>
    if frac.all Char.isDigit ∧ (ip ≠ [] ∨ frac ≠ []) then
      some (((digitsVal ip 0 : ℕ) : ℚ) +
        ((digitsVal frac 0 : ℕ) : ℚ) / (10 : ℚ) ^ frac.length)
    else none
  | _ => none

/-- Split a float literal at the first exponent marker. -/
def splitExp (l : List Char) : List Char × Option (List Char) :=
  match l.span (fun c => !(c == 'e' || c == 'E')) with
  | (m, []) => (m, none)
  | (m, _ :: ex) => (m, some ex)

/-- Python `float(s)` on an already-stripped field, as an exact rational:
optional sign, mantissa, optional exponent (`inf`/`nan`, which have no
rational value, and digit-group underscores are not modelled). -/
def pyFloat (l : List Char) : Option ℚ :=
  let p := pySign l
  let me := splitExp p.2
  match parseMantissa me.1 with
  | none => none
  | some m =>
    let expVal : Option ℤ :=
      match me.2 with
      | none => some 0
      | some ex =>
        let pe := pySign ex
        (parseDigits pe.2).map (fun n => if pe.1 then -(n : ℤ) else (n : ℤ))
    match expVal with
    | none => none
    | some e =>
      let v := m * (10 : ℚ) ^ e
      some (if p.1 then -v else v)

/-- The status field: an empty (stripped) field coerces to `0`, otherwise
`int(...)`, failure propagating as `None`. -/
def coerceStatus (l : List Char) : Option ℤ :=
  if l = [] then some 0 else pyInt l

/-- A timing field: an empty (stripped) field coerces to `0.0`, otherwise
`float(...)`, failure propagating as `None`. -/
def coerceTiming (l : List Char) : Option ℚ :=
  if l = [] then some 0 else pyFloat l

/-- `line.strip().split('|')` of the source. -/
def lineParts (line : String) : List (List Char) :=
  splitPipe (pyStrip line.toList)

/-- `parts[i].strip()` of the source. -/
def field (line : String) (i : ℕ) : List Char :=
  pyStrip ((lineParts line).getD i [])

/-- `parse_log_line`: strip the line, split on the pipe character, require
at least 6 fields, strip every field, and build the record; a `ValueError`
from `int`/`float` yields `None`. -/
def parse_log_line (line : String) : Option LogRecord :=
  if (lineParts line).length < 6 then none
  else
    match coerceStatus (field line 2),
          coerceTiming (field line 4),
          coerceTiming (field line 5) with
    | some st, some rt, some urt =>
      some
        { pool := String.mk (field line 0)
          release := String.mk (field line 1)
          upstream_status := st
          upstream_addr := String.mk (field line 3)
          request_time := rt
          upstream_response_time := urt }
    | _, _, _ => none

/-- The window reached from an empty deque by a sequence of appends. -/
def windowAfter {α : Type} (cap : ℕ) (xs : List α) : List α :=
  xs.foldl (dequeAppend cap) []

/-- A sequence of `add_request` calls (status, pool, timestamp). -/
def runAdds (cfg : Config) : State → List (ℤ × String × ℚ) → State
  | s, [] => s
  | s, c :: cs => runAdds cfg (add_request cfg s c.1 c.2.1 c.2.2) cs

/-- The `Request` built from one `add_request` call. -/
def toRequest (c : ℤ × String × ℚ) : Request :=
  { status := c.1, pool := c.2.1, timestamp := c.2.2 }

end Watcher

namespace Watcher

/-! ### Helper lemmas -/

lemma dequeAppend_eq_drop {α : Type} (cap : ℕ) (w : List α) (x : α) :
    dequeAppend cap w x = (w ++ [x]).drop ((w ++ [x]).length - cap) := rfl

lemma keepLast_append {α : Type} (cap : ℕ) (a b : List α) :
    (a.drop (a.length - cap) ++ b).drop ((a.drop (a.length - cap) ++ b).length - cap) =
      (a ++ b).drop ((a ++ b).length - cap) := by
  rw [List.drop_append_eq_append_drop, List.drop_append_eq_append_drop, List.drop_drop]
  have h1 : a.drop (a.length - cap) ≠ [] → True := fun _ => trivial
  congr 1
  · congr 1
    simp only [List.length_append, List.length_drop]
    omega
  · congr 1
    simp only [List.length_append, List.length_drop]
    omega

lemma foldl_dequeAppend {α : Type} (cap : ℕ) (xs : List α) :
    ∀ w : List α,
      xs.foldl (dequeAppend cap) (w.drop (w.length - cap)) =
        (w ++ xs).drop ((w ++ xs).length - cap) := by
  induction xs with
  | nil => intro w; simp
  | cons x xs ih =>
    intro w
    have step : dequeAppend cap (w.drop (w.length - cap)) x =
        (w ++ [x]).drop ((w ++ [x]).length - cap) := by
      rw [dequeAppend_eq_drop]
      exact keepLast_append cap w [x]
    calc (x :: xs).foldl (dequeAppend cap) (w.drop (w.length - cap))
        = xs.foldl (dequeAppend cap) (dequeAppend cap (w.drop (w.length - cap)) x) := rfl
      _ = xs.foldl (dequeAppend cap) ((w ++ [x]).drop ((w ++ [x]).length - cap)) := by rw [step]
      _ = ((w ++ [x]) ++ xs).drop (((w ++ [x]) ++ xs).length - cap) := ih (w ++ [x])
      _ = (w ++ x :: xs).drop ((w ++ x :: xs).length - cap) := by
          simp [List.append_assoc]

lemma windowAfter_eq_drop {α : Type} (cap : ℕ) (xs : List α) :
    windowAfter cap xs = xs.drop (xs.length - cap) := by
  have h := foldl_dequeAppend cap xs []
  simpa [windowAfter] using h

lemma runAdds_requestWindow (cfg : Config) (calls : List (ℤ × String × ℚ)) :
    ∀ s : State,
      (runAdds cfg s calls).requestWindow =
        (calls.map toRequest).foldl (dequeAppend cfg.windowSize) s.requestWindow := by
  induction calls with
  | nil => intro s; rfl
  | cons c cs ih =>
    intro s
    simp only [runAdds, List.map_cons, List.foldl_cons]
    rw [ih]
    rfl

/-! ### C2: sliding-window FIFO invariant -/

/-- C2: for every sequence of `add_request` calls starting from the fresh
state, the retained window is exactly the most recent
`min (calls made) WINDOW_SIZE` insertions in arrival order, its length is
`min (calls made) WINDOW_SIZE`, and it never exceeds the capacity (so at
capacity the oldest entry is evicted by the same append). -/
theorem add_request_window_fifo (cfg : Config) (calls : List (ℤ × String × ℚ)) :
    (runAdds cfg initState calls).requestWindow =
      (calls.map toRequest).drop (calls.length - cfg.windowSize)
    ∧ (runAdds cfg initState calls).requestWindow.length =
        min calls.length cfg.windowSize
    ∧ (runAdds cfg initState calls).requestWindow.length ≤ cfg.windowSize := by
  have h := runAdds_requestWindow cfg calls initState
  have h2 : (runAdds cfg initState calls).requestWindow =
      (calls.map toRequest).drop ((calls.map toRequest).length - cfg.windowSize) := by
    rw [h]
    simpa using foldl_dequeAppend cfg.windowSize (calls.map toRequest) []
  refine ⟨?_, ?_, ?_⟩
  · simpa using h2
  · rw [h2]
    simp only [List.length_drop, List.length_map]
    omega
  · rw [h2]
    simp only [List.length_drop, List.length_map]
    omega

/-! ### C3: error-rate computation -/

/-- C3: `get_error_rate` is 0 on an empty window (with no division), equals
(5xx count)/(window length)·100 on a non-empty window, is 100 when every
status lies in [500, 600), and 0 when none does. -/
theorem get_error_rate_spec (s : State) :
    (s.requestWindow = [] → get_error_rate s = 0)
    ∧ (s.requestWindow ≠ [] →
        get_error_rate s =
          ((s.requestWindow.countP
              (fun r => decide (500 ≤ r.status ∧ r.status < 600)) : ℚ) /
            (s.requestWindow.length : ℚ)) * 100)
    ∧ (s.requestWindow ≠ [] →
        (∀ r ∈ s.requestWindow, 500 ≤ r.status ∧ r.status < 600) →
        get_error_rate s = 100)
    ∧ ((∀ r ∈ s.requestWindow, ¬(500 ≤ r.status ∧ r.status < 600)) →
        get_error_rate s = 0) := by
  refine ⟨?_, ?_, ?_, ?_⟩
  · intro h
    simp [get_error_rate, h]
  · intro h
    simp [get_error_rate, List.length_eq_zero, h]
  · intro h hall
    have hlen : s.requestWindow.length ≠ 0 := by
      simpa [List.length_eq_zero] using h
    have hcount : s.requestWindow.countP
        (fun r => decide (500 ≤ r.status ∧ r.status < 600)) =
        s.requestWindow.length := by
      rw [List.countP_eq_length]
      intro r hr
      exact decide_eq_true (hall r hr)
    have hq : (s.requestWindow.length : ℚ) ≠ 0 := by
      exact_mod_cast hlen
    unfold get_error_rate
    rw [if_neg hlen, hcount]
    simp only [div_self hq, one_mul]
  · intro hnone
    have hcount : s.requestWindow.countP
        (fun r => decide (500 ≤ r.status ∧ r.status < 600)) = 0 := by
      rw [List.countP_eq_zero]
      intro r hr
      simpa using hnone r hr
    by_cases h : s.requestWindow.length = 0
    · unfold get_error_rate
      rw [if_pos h]
    · unfold get_error_rate
      rw [if_neg h, hcount]
      norm_num

/-- Witness for C3 at concrete windows: the empty window yields 0, an
all-5xx window yields 100, and a window with no 5xx yields 0. -/
theorem get_error_rate_spec_witness :
    get_error_rate initState = 0
    ∧ get_error_rate { initState with requestWindow := [⟨500, "blue", 1⟩] } = 100
    ∧ get_error_rate { initState with requestWindow := [⟨200, "blue", 1⟩] } = 0 :=
  ⟨(get_error_rate_spec initState).1 rfl,
   (get_error_rate_spec _).2.2.1 (by decide) (by decide),
   (get_error_rate_spec _).2.2.2 (by decide)⟩

/-! ### Dictionary lemmas for the alert gate -/

lemma dictGetD_eq_getD_dictGet (d : List (String × ℚ)) (k : String) (v0 : ℚ) :
    dictGetD d k v0 = (dictGet d k).getD v0 := by
  induction d with
  | nil => rfl
  | cons p rest ih =>
    obtain ⟨k1, v1⟩ := p
    by_cases h : k1 = k
    · simp [dictGetD, dictGet, h]
    · simp [dictGetD, dictGet, h, ih]

lemma dictGetD_dictSet_self (d : List (String × ℚ)) (k : String) (v v0 : ℚ) :
    dictGetD (dictSet d k v) k v0 = v := by
  induction d with
  | nil => simp [dictSet, dictGetD]
  | cons p rest ih =>
    obtain ⟨k1, v1⟩ := p
    by_cases h : k1 = k
    · simp [dictSet, dictGetD, h]
    · simp [dictSet, dictGetD, h, ih]

/-! ### C1: alert-gate cooldown contract (corrected) -/

/-- C1 counterexample: with maintenance mode off and no prior send recorded
for "failover", the first `can_send_alert` call at wall-clock time 0
returns false under the default 300-second cooldown — refuting the claim
that the first call with no prior send returns true for any current time
(an absent entry is not treated as elapsed = +infinity). -/
theorem can_send_alert_first_call_not_always_true :
    dictGet initState.lastAlertTimes "failover" = none
    ∧ defaultConfig.maintenanceMode = false
    ∧ (can_send_alert defaultConfig initState "failover" 0).1 = false := by
  refine ⟨rfl, rfl, ?_⟩
  norm_num [can_send_alert, defaultConfig, initState, dictGetD]

/-- C1 amended: with maintenance mode off, `can_send_alert` returns true
iff `now - lastSent` is at least the cooldown, where an absent entry is
treated as `lastSent = 0` (the Unix epoch) — so the first call for a type
returns true exactly when `now` is at least the cooldown; exactly when it
returns true it records `lastSent[alertType] = now` (and otherwise leaves
the state unchanged), so an immediate second call for the same type
returns false (for a positive cooldown) and a call after the cooldown has
elapsed returns true again. -/
theorem can_send_alert_cooldown_contract (cfg : Config) (s : State)
    (alertType : String) (now : ℚ) (hm : cfg.maintenanceMode = false) :
    ((can_send_alert cfg s alertType now).1 = true ↔
      cfg.alertCooldownSec ≤ now - dictGetD s.lastAlertTimes alertType 0)
    ∧ ((can_send_alert cfg s alertType now).1 = true →
        (can_send_alert cfg s alertType now).2 =
          { s with lastAlertTimes := dictSet s.lastAlertTimes alertType now })
    ∧ ((can_send_alert cfg s alertType now).1 = false →
        (can_send_alert cfg s alertType now).2 = s)
    ∧ (dictGet s.lastAlertTimes alertType = none →
        ((can_send_alert cfg s alertType now).1 = true ↔
          cfg.alertCooldownSec ≤ now))
    ∧ ((can_send_alert cfg s alertType now).1 = true → 0 < cfg.alertCooldownSec →
        (can_send_alert cfg (can_send_alert cfg s alertType now).2 alertType now).1
          = false)
    ∧ ((can_send_alert cfg s alertType now).1 = true →
        ∀ now2 : ℚ, now + cfg.alertCooldownSec ≤ now2 →
        (can_send_alert cfg (can_send_alert cfg s alertType now).2 alertType now2).1
          = true) := by
  have heq : ∀ t : State, can_send_alert cfg t alertType now =
      if cfg.alertCooldownSec ≤ now - dictGetD t.lastAlertTimes alertType 0 then
        (true, { t with lastAlertTimes := dictSet t.lastAlertTimes alertType now })
      else (false, t) := by
    intro t
    unfold can_send_alert
    rw [hm]
    simp
  have heq2 : ∀ (t : State) (n2 : ℚ), can_send_alert cfg t alertType n2 =
      if cfg.alertCooldownSec ≤ n2 - dictGetD t.lastAlertTimes alertType 0 then
        (true, { t with lastAlertTimes := dictSet t.lastAlertTimes alertType n2 })
      else (false, t) := by
    intro t n2
    unfold can_send_alert
    rw [hm]
    simp
  have hbase : ∀ t : State, (can_send_alert cfg t alertType now).1 = true ↔
      cfg.alertCooldownSec ≤ now - dictGetD t.lastAlertTimes alertType 0 := by
    intro t
    rw [heq t]
    split <;> simp_all
  refine ⟨hbase s, ?_, ?_, ?_, ?_, ?_⟩
  · intro htrue
    have hc : cfg.alertCooldownSec ≤ now - dictGetD s.lastAlertTimes alertType 0 :=
      (hbase s).mp htrue
    rw [heq s, if_pos hc]
  · intro hfalse
    by_cases hc : cfg.alertCooldownSec ≤ now - dictGetD s.lastAlertTimes alertType 0
    · rw [heq s, if_pos hc] at hfalse
      simp at hfalse
    · rw [heq s, if_neg hc]
  · intro hnone
    rw [hbase s, dictGetD_eq_getD_dictGet, hnone]
    simp
  · intro htrue hpos
    have hc : cfg.alertCooldownSec ≤ now - dictGetD s.lastAlertTimes alertType 0 :=
      (hbase s).mp htrue
    rw [heq s, if_pos hc, heq]
    simp only [dictGetD_dictSet_self, sub_self]
    rw [if_neg (by linarith)]
  · intro htrue now2 hle
    have hc : cfg.alertCooldownSec ≤ now - dictGetD s.lastAlertTimes alertType 0 :=
      (hbase s).mp htrue
    rw [heq s, if_pos hc, heq2]
    simp only [dictGetD_dictSet_self]
    rw [if_pos (by linarith)]

/-- Witness for C1 (amended) at the default configuration: maintenance off,
no prior send, first call at time 1000 (which is at least the 300-second
cooldown) returns true; the immediate repeat returns false; a repeat after
the cooldown returns true. -/
theorem can_send_alert_cooldown_contract_witness :
    defaultConfig.maintenanceMode = false
    ∧ (can_send_alert defaultConfig initState "failover" 1000).1 = true
    ∧ (can_send_alert defaultConfig
        (can_send_alert defaultConfig initState "failover" 1000).2
        "failover" 1000).1 = false
    ∧ (can_send_alert defaultConfig
        (can_send_alert defaultConfig initState "failover" 1000).2
        "failover" 1300).1 = true := by
  have hfirst : (can_send_alert defaultConfig initState "failover" 1000).1 = true :=
    ((can_send_alert_cooldown_contract defaultConfig initState "failover" 1000
      rfl).2.2.2.1 rfl).mpr (by norm_num [defaultConfig])
  refine ⟨rfl, hfirst, ?_, ?_⟩
  · exact (can_send_alert_cooldown_contract defaultConfig initState "failover" 1000
      rfl).2.2.2.2.1 hfirst (by norm_num [defaultConfig])
  · exact (can_send_alert_cooldown_contract defaultConfig initState "failover" 1000
      rfl).2.2.2.2.2 hfirst 1300 (by norm_num [defaultConfig])

/-- `can_send_alert` only ever touches `lastAlertTimes`: the window, the
active pool and `failoverStartTime` pass through unchanged. -/
lemma can_send_alert_frame (cfg : Config) (t : State) (alertType : String) (now : ℚ) :
    (can_send_alert cfg t alertType now).2.requestWindow = t.requestWindow
    ∧ (can_send_alert cfg t alertType now).2.currentPool = t.currentPool
    ∧ (can_send_alert cfg t alertType now).2.failoverStartTime = t.failoverStartTime
    ∧ (can_send_alert cfg t alertType now).2.totalRequests = t.totalRequests := by
  unfold can_send_alert
  dsimp only
  split
  · exact ⟨rfl, rfl, rfl, rfl⟩
  · split
    · exact ⟨rfl, rfl, rfl, rfl⟩
    · exact ⟨rfl, rfl, rfl, rfl⟩

/-! ### C5: state advances regardless of notification outcome -/

/-- C5: on every `detect_failover` call where the observed pool differs
from the current active pool, the active pool is updated unconditionally
(in particular even when the failover alert was suppressed by cooldown or
maintenance mode, about which nothing is assumed); and whenever the
recovery branch is entered — the new pool name starts with "blue"
case-insensitively and `failover_start_time` was truthy before the call
(at a nonzero wall-clock time, so a grant of the failover alert keeps it
truthy) — `failover_start_time` is cleared, with no assumption on whether
the recovery alert was granted. -/
theorem detect_failover_state_advances (cfg : Config) (s : State)
    (pool : String) (now : ℚ) (cur : String)
    (hcur : s.currentPool = some cur) (hne : cur ≠ pool) :
    (detect_failover cfg s pool now).2.1.currentPool = some pool
    ∧ (now ≠ 0 → startsWithBlue pool = true →
        pyTruthy s.failoverStartTime = true →
        (detect_failover cfg s pool now).2.1.failoverStartTime = none) := by
  have hframe := can_send_alert_frame cfg s "failover" now
  unfold detect_failover
  rw [hcur]
  dsimp only
  rw [if_neg hne]
  have hnow : ∀ h : now ≠ 0, pyTruthy (some now) = true := by
    intro h
    simp [pyTruthy, h]
  by_cases hg : (can_send_alert cfg s "failover" now).1 = true
  · constructor
    · simp only [hg, if_pos]
      split
      · exact (can_send_alert_frame cfg _ "recovery" now).2.1
      · rfl
    · intro hnz hblue _
      simp [hg, hblue, hnow hnz]
  · have hg' : (can_send_alert cfg s "failover" now).1 = false := by
      simpa using hg
    constructor
    · simp only [hg', Bool.false_eq_true, if_false]
      split
      · exact (can_send_alert_frame cfg _ "recovery" now).2.1
      · rfl
    · intro hnz hblue htruthy
      simp [hg', hblue, hframe.2.2.1, htruthy]

/-- Witness for C5: with maintenance mode on (so the failover alert is
certainly suppressed), observing "blue" from active pool "green" with a
truthy `failover_start_time` still updates the pool and clears the
failover start. -/
theorem detect_failover_state_advances_witness :
    ({ requestWindow := []
       currentPool := some "green"
       lastAlertTimes := []
       failoverStartTime := some 50
       totalRequests := 0 } : State).currentPool = some "green"
    ∧ (detect_failover { defaultConfig with maintenanceMode := true }
        { requestWindow := []
          currentPool := some "green"
          lastAlertTimes := []
          failoverStartTime := some 50
          totalRequests := 0 } "blue" 7).2.1.currentPool = some "blue"
    ∧ (detect_failover { defaultConfig with maintenanceMode := true }
        { requestWindow := []
          currentPool := some "green"
          lastAlertTimes := []
          failoverStartTime := some 50
          totalRequests := 0 } "blue" 7).2.1.failoverStartTime = none := by
  have h := detect_failover_state_advances
    { defaultConfig with maintenanceMode := true }
    { requestWindow := []
      currentPool := some "green"
      lastAlertTimes := []
      failoverStartTime := some 50
      totalRequests := 0 } "blue" 7 "green" rfl (by decide)
  exact ⟨rfl, h.1, h.2 (by norm_num) (by decide) (by norm_num [pyTruthy])⟩

/-! ### C9: failoverStart under a denied failover alert (corrected) -/

/-- A state in which a failover alert is on cooldown and
`failover_start_time` is set. -/
def stateOnCooldownWithStart : State :=
  { requestWindow := []
    currentPool := some "green"
    lastAlertTimes := [("failover", 1000)]
    failoverStartTime := some 100
    totalRequests := 0 }

/-- A state in which a failover alert is on cooldown and
`failover_start_time` is unset. -/
def stateOnCooldownNoStart : State :=
  { requestWindow := []
    currentPool := some "blue"
    lastAlertTimes := [("failover", 1000)]
    failoverStartTime := none
    totalRequests := 0 }

/-- C9 counterexample. Two concrete runs under the default configuration
refute the claim. First, a denied failover alert does not leave
`failover_start_time` unchanged: observing "blue" from "green" at time
1100 (cooldown active since the 1000 grant) is denied, yet the recovery
branch clears the previously set `failover_start_time = 100`. Second, a
subsequent transition back to a "blue"-prefixed pool after a denied
transition can still attempt a recovery alert: from the unset state,
"green" at 1100 is denied and leaves the start unset, but observing
"blue" at 1500 grants the failover alert, sets the start, and then
attempts a recovery alert in the same call. -/
theorem detect_failover_denied_alert_counterexample :
    (stateOnCooldownWithStart.failoverStartTime = some 100
      ∧ Event.gateAttempt "failover" false ∈
          (detect_failover defaultConfig stateOnCooldownWithStart "blue" 1100).2.2
      ∧ (detect_failover defaultConfig stateOnCooldownWithStart
          "blue" 1100).2.1.failoverStartTime = none)
    ∧ (stateOnCooldownNoStart.failoverStartTime = none
      ∧ Event.gateAttempt "failover" false ∈
          (detect_failover defaultConfig stateOnCooldownNoStart "green" 1100).2.2
      ∧ (detect_failover defaultConfig stateOnCooldownNoStart
          "green" 1100).2.1.failoverStartTime = none
      ∧ Event.gateAttempt "recovery" true ∈
          (detect_failover defaultConfig
            (detect_failover defaultConfig stateOnCooldownNoStart "green" 1100).2.1
            "blue" 1500).2.2) := by
  refine ⟨⟨rfl, ?_, ?_⟩, rfl, ?_, ?_, ?_⟩
  all_goals
    simp +decide [detect_failover, stateOnCooldownWithStart, stateOnCooldownNoStart,
      can_send_alert, defaultConfig, dictGetD, dictSet, pyTruthy, startsWithBlue]
  all_goals
    norm_num [dictGetD, dictSet]
  all_goals
    simp +decide

/-- C9 amended: when `detect_failover` sees a pool change but the failover
alert is denied by the gate, `failover_start_time` is never assigned a
timestamp by that call; in particular, when it was unset before the call
it remains unset, and in that same situation no recovery alert attempt is
made (the recovery branch is not entered), whatever the new pool's name. -/
theorem detect_failover_denied_keeps_start_unset (cfg : Config) (s : State)
    (pool : String) (now : ℚ) (cur : String)
    (hcur : s.currentPool = some cur) (hne : cur ≠ pool)
    (hdenied : (can_send_alert cfg s "failover" now).1 = false)
    (hunset : s.failoverStartTime = none) :
    (detect_failover cfg s pool now).2.1.failoverStartTime = none
    ∧ ∀ b : Bool, Event.gateAttempt "recovery" b ∉
        (detect_failover cfg s pool now).2.2 := by
  have hframe := can_send_alert_frame cfg s "failover" now
  have hstart : (can_send_alert cfg s "failover" now).2.failoverStartTime = none := by
    rw [hframe.2.2.1, hunset]
  unfold detect_failover
  rw [hcur]
  dsimp only
  rw [if_neg hne, hdenied]
  simp only [Bool.false_eq_true, if_false, hstart, pyTruthy, Bool.and_false]
  refine ⟨trivial, ?_⟩
  intro b hb
  simp at hb

/-- Witness for C9 (amended): from the unset state, a denied "green"
observation at time 1100 keeps `failover_start_time` unset and attempts
no recovery alert. -/
theorem detect_failover_denied_keeps_start_unset_witness :
    stateOnCooldownNoStart.currentPool = some "blue"
    ∧ (can_send_alert defaultConfig stateOnCooldownNoStart "failover" 1100).1 = false
    ∧ (detect_failover defaultConfig stateOnCooldownNoStart
        "green" 1100).2.1.failoverStartTime = none
    ∧ ∀ b : Bool, Event.gateAttempt "recovery" b ∉
        (detect_failover defaultConfig stateOnCooldownNoStart "green" 1100).2.2 := by
  have hden : (can_send_alert defaultConfig stateOnCooldownNoStart "failover" 1100).1
      = false := by
    norm_num [can_send_alert, defaultConfig, stateOnCooldownNoStart, dictGetD]
  have h := detect_failover_denied_keeps_start_unset defaultConfig
    stateOnCooldownNoStart "green" 1100 "blue" rfl (by decide) hden rfl
  exact ⟨rfl, hden, h.1, h.2⟩

/-! ### C4: the observe("blue"), observe("green"), observe("blue") sequence -/

/-- First observation of the scenario: `observe("blue")` from the fresh
state at time `now1`. -/
def step1 (cfg : Config) (now1 : ℚ) : Bool × State × List Event :=
  detect_failover cfg initState "blue" now1

/-- Second observation: `observe("green")` at time `now2`. -/
def step2 (cfg : Config) (now1 now2 : ℚ) : Bool × State × List Event :=
  detect_failover cfg (step1 cfg now1).2.1 "green" now2

/-- Third observation: `observe("blue")` at time `now3`. -/
def step3 (cfg : Config) (now1 now2 now3 : ℚ) : Bool × State × List Event :=
  detect_failover cfg (step2 cfg now1 now2).2.1 "blue" now3

/-- C4: with maintenance mode off, a positive cooldown, and the second
observation happening once the cooldown has elapsed since the epoch (so
its failover alert passes the gate and sets `failover_start_time`, as the
claim presupposes), the sequence observe("blue"), observe("green"),
observe("blue") yields: no failover and no alert on the first call, which
records the initial pool; a detected failover with a granted failover
alert attempt (blue → green) and no recovery attempt on the second; and a
detected failover with a failover alert attempt AND a recovery alert
attempt on the third, because "blue" starts with the prefix "blue". -/
theorem detect_failover_observe_sequence (cfg : Config) (now1 now2 now3 : ℚ)
    (hm : cfg.maintenanceMode = false)
    (hcool : 0 < cfg.alertCooldownSec)
    (h2 : cfg.alertCooldownSec ≤ now2) :
    step1 cfg now1 = (false, { initState with currentPool := some "blue" }, [])
    ∧ (step2 cfg now1 now2).1 = true
    ∧ Event.gateAttempt "failover" true ∈ (step2 cfg now1 now2).2.2
    ∧ Event.slackFailover "blue" "green" ∈ (step2 cfg now1 now2).2.2
    ∧ (∀ b : Bool, Event.gateAttempt "recovery" b ∉ (step2 cfg now1 now2).2.2)
    ∧ (step3 cfg now1 now2 now3).1 = true
    ∧ (∃ b : Bool, Event.gateAttempt "failover" b ∈ (step3 cfg now1 now2 now3).2.2)
    ∧ (∃ b : Bool, Event.gateAttempt "recovery" b ∈ (step3 cfg now1 now2 now3).2.2) := by
  have h1 : step1 cfg now1 = (false, { initState with currentPool := some "blue" }, []) :=
    rfl
  have hst2 : step2 cfg now1 now2 =
      (true,
        { requestWindow := []
          currentPool := some "green"
          lastAlertTimes := [("failover", now2)]
          failoverStartTime := some now2
          totalRequests := 0 },
        [Event.gateAttempt "failover" true, Event.slackFailover "blue" "green"]) := by
    unfold step2
    rw [h1]
    simp +decide [detect_failover, can_send_alert, hm, h2, initState, dictGetD, dictSet,
      pyTruthy, startsWithBlue]
  have hnz2 : now2 ≠ 0 := by
    have : (0 : ℚ) < now2 := lt_of_lt_of_le hcool h2
    exact this.ne'
  refine ⟨h1, ?_, ?_, ?_, ?_, ?_, ?_, ?_⟩
  · rw [hst2]
  · rw [hst2]; simp
  · rw [hst2]; simp
  · intro b
    rw [hst2]
    simp
  all_goals
    unfold step3
    rw [hst2]
    by_cases hc3 : cfg.alertCooldownSec ≤ now3 - now2
  · have hle3 : cfg.alertCooldownSec ≤ now3 := by linarith
    have hnz3 : now3 ≠ 0 := by
      have : (0 : ℚ) < now3 := by linarith
      exact this.ne'
    simp +decide [detect_failover, can_send_alert, hm, hc3, hle3, hnz2, hnz3,
      dictGetD, dictSet, pyTruthy, startsWithBlue]
  · simp +decide [detect_failover, can_send_alert, hm, hc3, hnz2,
      dictGetD, dictSet, pyTruthy, startsWithBlue]
  · have hle3 : cfg.alertCooldownSec ≤ now3 := by linarith
    have hnz3 : now3 ≠ 0 := by
      have : (0 : ℚ) < now3 := by linarith
      exact this.ne'
    exact ⟨true, by
      simp +decide [detect_failover, can_send_alert, hm, hc3, hle3, hnz2, hnz3,
        dictGetD, dictSet, pyTruthy, startsWithBlue]⟩
  · exact ⟨false, by
      simp +decide [detect_failover, can_send_alert, hm, hc3, hnz2,
        dictGetD, dictSet, pyTruthy, startsWithBlue]⟩
  · have hle3 : cfg.alertCooldownSec ≤ now3 := by linarith
    have hnz3 : now3 ≠ 0 := by
      have : (0 : ℚ) < now3 := by linarith
      exact this.ne'
    exact ⟨true, by
      simp +decide [detect_failover, can_send_alert, hm, hc3, hle3, hnz2, hnz3,
        dictGetD, dictSet, pyTruthy, startsWithBlue]⟩
  · by_cases hrc : cfg.alertCooldownSec ≤ now3
    · exact ⟨true, by
        simp +decide [detect_failover, can_send_alert, hm, hc3, hrc, hnz2,
          dictGetD, dictSet, pyTruthy, startsWithBlue]⟩
    · exact ⟨false, by
        simp +decide [detect_failover, can_send_alert, hm, hc3, hrc, hnz2,
          dictGetD, dictSet, pyTruthy, startsWithBlue]⟩

/-- Witness for C4 at the default configuration with times 10, 400, 450:
the second call's alert is granted and the third call attempts a
recovery alert. -/
theorem detect_failover_observe_sequence_witness :
    defaultConfig.maintenanceMode = false
    ∧ (0 : ℚ) < defaultConfig.alertCooldownSec
    ∧ defaultConfig.alertCooldownSec ≤ (400 : ℚ)
    ∧ (step2 defaultConfig 10 400).1 = true
    ∧ (∃ b : Bool, Event.gateAttempt "recovery" b ∈ (step3 defaultConfig 10 400 450).2.2) := by
  have h := detect_failover_observe_sequence defaultConfig 10 400 450 rfl
    (by norm_num [defaultConfig]) (by norm_num [defaultConfig])
  exact ⟨rfl, by norm_num [defaultConfig], by norm_num [defaultConfig],
    h.2.1, h.2.2.2.2.2.2.2⟩

/-! ### C8: maintenance-mode override -/

/-- C8: when maintenance mode is enabled, `can_send_alert` returns false
for every alert type, state and time, and leaves the whole state — in
particular the last-sent mapping — unchanged. -/
theorem can_send_alert_maintenance_override (cfg : Config) (s : State)
    (alertType : String) (now : ℚ) (hm : cfg.maintenanceMode = true) :
    can_send_alert cfg s alertType now = (false, s) := by
  unfold can_send_alert
  rw [hm]
  simp

/-- Witness for C8: the default configuration with maintenance mode turned
on suppresses a first-ever alert and does not touch the state. -/
theorem can_send_alert_maintenance_override_witness :
    ({ defaultConfig with maintenanceMode := true } : Config).maintenanceMode = true
    ∧ can_send_alert { defaultConfig with maintenanceMode := true }
        initState "failover" 99999 = (false, initState) :=
  ⟨rfl, can_send_alert_maintenance_override
    { defaultConfig with maintenanceMode := true } initState "failover" 99999 rfl⟩

/-! ### C6: error-rate monitor gating -/

/-- C6: `check_error_rate` is a no-op (state unchanged, no gate call, no
alert attempt) while the window holds fewer than 10% of the configured
capacity; otherwise it is still a no-op when the error rate does not
strictly exceed the threshold (equality triggers nothing), and when the
rate strictly exceeds the threshold it attempts the gate exactly once and
notifies with the error rate and the active pool exactly when the gate
grants. -/
theorem check_error_rate_gating (cfg : Config) (s : State) (now : ℚ) :
    ((s.requestWindow.length : ℚ) < (cfg.windowSize : ℚ) * (1 / 10) →
      check_error_rate cfg s now = (s, []))
    ∧ ((cfg.windowSize : ℚ) * (1 / 10) ≤ (s.requestWindow.length : ℚ) →
        (get_error_rate s ≤ cfg.errorRateThreshold →
          check_error_rate cfg s now = (s, []))
        ∧ (cfg.errorRateThreshold < get_error_rate s →
            check_error_rate cfg s now =
              ((can_send_alert cfg s "error_rate" now).2,
                Event.gateAttempt "error_rate" (can_send_alert cfg s "error_rate" now).1 ::
                  (if (can_send_alert cfg s "error_rate" now).1 then
                    [Event.slackErrorRate (get_error_rate s)
                      (pyOrStr s.currentPool "Unknown")]
                  else [])))) := by
  refine ⟨?_, ?_⟩
  · intro hlt
    unfold check_error_rate
    rw [if_pos hlt]
  · intro hge
    have hnotlt : ¬((s.requestWindow.length : ℚ) < (cfg.windowSize : ℚ) * (1 / 10)) :=
      not_lt.mpr hge
    refine ⟨?_, ?_⟩
    · intro hle
      unfold check_error_rate
      rw [if_neg hnotlt]
      dsimp only
      rw [if_neg (not_lt.mpr hle)]
    · intro hgt
      unfold check_error_rate
      rw [if_neg hnotlt]
      dsimp only
      rw [if_pos hgt]

/-- Witness for C6 with a 10-entry window capacity: the empty window is a
no-op; one all-5xx entry is at least 10% of the capacity and exceeds the
2% threshold, so the gate is attempted, granted, and the notification
carries the 100% rate and the active pool. -/
theorem check_error_rate_gating_witness :
    check_error_rate { defaultConfig with windowSize := 10 } initState 1000 =
      (initState, [])
    ∧ check_error_rate { defaultConfig with windowSize := 10 }
        { initState with
          requestWindow := [⟨500, "blue", 1⟩]
          currentPool := some "blue" } 1000 =
      ({ initState with
          requestWindow := [⟨500, "blue", 1⟩]
          currentPool := some "blue"
          lastAlertTimes := [("error_rate", 1000)] },
        [Event.gateAttempt "error_rate" true,
         Event.slackErrorRate 100 "blue"]) := by
  constructor
  · exact (check_error_rate_gating { defaultConfig with windowSize := 10 }
      initState 1000).1 (by norm_num [initState, defaultConfig])
  · have h := (check_error_rate_gating { defaultConfig with windowSize := 10 }
      { initState with
        requestWindow := [⟨500, "blue", 1⟩]
        currentPool := some "blue" } 1000).2
      (by norm_num [initState, defaultConfig]) |>.2
      (by
        norm_num [get_error_rate, initState, defaultConfig, List.countP, List.countP.go])
    rw [h]
    have hg : can_send_alert { defaultConfig with windowSize := 10 }
        { initState with
          requestWindow := [⟨500, "blue", 1⟩]
          currentPool := some "blue" } "error_rate" 1000 =
        (true, { initState with
          requestWindow := [⟨500, "blue", 1⟩]
          currentPool := some "blue"
          lastAlertTimes := [("error_rate", 1000)] }) := by
      simp +decide [can_send_alert, defaultConfig, initState, dictGetD, dictSet]
    rw [hg]
    have hrate : get_error_rate
        { initState with
          requestWindow := [⟨500, "blue", 1⟩]
          currentPool := some "blue" } = 100 := by
      norm_num [get_error_rate, initState, List.countP, List.countP.go]
    rw [hrate]
    simp [pyOrStr, initState]

/-! ### C7: line-parser contract -/

lemma coerceStatus_eq_none_iff (l : List Char) :
    coerceStatus l = none ↔ l ≠ [] ∧ pyInt l = none := by
  unfold coerceStatus
  by_cases h : l = [] <;> simp [h]

lemma coerceTiming_eq_none_iff (l : List Char) :
    coerceTiming l = none ↔ l ≠ [] ∧ pyFloat l = none := by
  unfold coerceTiming
  by_cases h : l = [] <;> simp [h]

/-- C7: `parse_log_line` (a total function, so no exception can escape)
returns `none` exactly when the stripped line splits on the pipe into
fewer than 6 fields, or the stripped status field is non-empty but not an
integer, or a stripped timing field is non-empty but not numeric; the
spec's example line parses to the expected record (with every field
whitespace-trimmed and the exact rational timings), a 3-field line is
unparseable, and a non-numeric status is unparseable. -/
theorem parse_log_line_contract :
    (∀ line : String,
      parse_log_line line = none ↔
        (lineParts line).length < 6
        ∨ coerceStatus (field line 2) = none
        ∨ coerceTiming (field line 4) = none
        ∨ coerceTiming (field line 5) = none)
    ∧ (∀ l : List Char, coerceStatus l = none ↔ l ≠ [] ∧ pyInt l = none)
    ∧ (∀ l : List Char, coerceTiming l = none ↔ l ≠ [] ∧ pyFloat l = none)
    ∧ parse_log_line "blue|Blue-v1.0.0|200|172.19.0.2:80|0.003|0.002" =
        some { pool := "blue", release := "Blue-v1.0.0", upstream_status := 200,
               upstream_addr := "172.19.0.2:80", request_time := 3 / 1000,
               upstream_response_time := 1 / 500 }
    ∧ parse_log_line "a|b|c" = none
    ∧ parse_log_line "blue|Blue-v1.0.0|xx|172.19.0.2:80|0.003|0.002" = none := by
  refine ⟨?_, coerceStatus_eq_none_iff, coerceTiming_eq_none_iff, ?_, ?_, ?_⟩
  · intro line
    unfold parse_log_line
    by_cases h6 : (lineParts line).length < 6
    · rw [if_pos h6]
      exact iff_of_true rfl (Or.inl h6)
    · rw [if_neg h6]
      rcases hst : coerceStatus (field line 2) with _ | st
      · simp
      · rcases hrt : coerceTiming (field line 4) with _ | rt
        · simp
        · rcases hurt : coerceTiming (field line 5) with _ | urt
          · simp
          · simp [h6]
  · simp +decide [parse_log_line, lineParts, field, coerceStatus, coerceTiming, pyStrip,
      splitPipe, pySign, pyInt, pyFloat, splitExp, parseMantissa, parseDigits, digitsVal]
    norm_num
  · decide
  · simp +decide [parse_log_line, lineParts, field, coerceStatus, coerceTiming, pyStrip,
      splitPipe, pySign, pyInt, pyFloat, splitExp, parseMantissa, parseDigits, digitsVal]

/-! ### C10: the all-empty-fields line is accepted -/

/-- C10: the line of exactly five pipes splits into 6 empty fields and is
accepted (not unparseable), every string field empty, the status coerced
to 0 and the timings to 0.0; feeding the resulting status and pool to
`add_request` puts an observation with status 0 and empty pool name into
the window. -/
theorem parse_log_line_all_empty_fields :
    parse_log_line "|||||" =
      some { pool := "", release := "", upstream_status := 0, upstream_addr := "",
             request_time := 0, upstream_response_time := 0 }
    ∧ (add_request defaultConfig initState 0 "" 5).requestWindow =
        [{ status := 0, pool := "", timestamp := 5 }] := by
  constructor
  · decide
  · norm_num [add_request, dequeAppend, initState, defaultConfig]

end Watcher
